import Mathlib

/-!
Shallow embedding of `docs/validate_config.py`, a ReadTheDocs documentation
configuration checker for ProteusJS.  The filesystem is modelled as a map
from path strings to an optional entry kind (file or directory) together
with a content map; `os.path.exists` is existence of an entry of any kind.
Each Python check function becomes a Lean function returning its boolean
result together with the list of lines it prints; `main` returns the
process exit code together with the full console output as a list of lines.
-/

namespace ValidateConfig

/-- Kind of a filesystem entry: a regular file or a directory. -/
inductive EntryKind where
  | file : EntryKind
  | dir : EntryKind
deriving DecidableEq

/-- Filesystem state relative to the resolved working directory (the script
does `os.chdir` to its own directory first, so all paths here are as the
script resolves them).  `entries` gives the entry at a path, if any;
`content` gives the text read from a path (only consulted for paths whose
entry exists). -/
structure FS where
  entries : String → Option EntryKind
  content : String → String

/-- Embedding of Python `os.path.exists`: true iff an entry of any kind is
present at the path. -/
def os_path_exists (fs : FS) (p : String) : Bool :=
  (fs.entries p).isSome

/-- Boolean test that `pat` occurs at the start of `l`. -/
def startsWithL : List Char → List Char → Bool
  | [], _ => true
  | _ :: _, [] => false
  | a :: as, b :: bs => a == b && startsWithL as bs

/-- Boolean test that `pat` occurs as a contiguous run somewhere in `l`
(Python's `pat in s` on strings). -/
def occursIn (pat : List Char) : List Char → Bool
  | [] => startsWithL pat []
  | c :: cs => startsWithL pat (c :: cs) || occursIn pat cs

/-- Python substring containment `pat in s`. -/
def strContains (s pat : String) : Bool :=
  occursIn pat.data s.data

/-- Embedding of `check_file_exists(filepath, description)`. -/
def check_file_exists (fs : FS) (filepath description : String) : Bool × List String :=
  if os_path_exists fs filepath then
    (true, ["✅ " ++ description ++ ": " ++ filepath])
  else
    (false, ["❌ " ++ description ++ ": " ++ filepath ++ " (missing)"])

/-- Embedding of `check_directory_exists(dirpath, description)`. -/
def check_directory_exists (fs : FS) (dirpath description : String) : Bool × List String :=
  if os_path_exists fs dirpath then
    (true, ["✅ " ++ description ++ ": " ++ dirpath])
  else
    (false, ["❌ " ++ description ++ ": " ++ dirpath ++ " (missing)"])

/-- The `required_packages` list of `validate_requirements`. -/
def required_packages : List String :=
  ["sphinx", "myst-parser", "sphinx-rtd-theme"]

/-- The `missing_packages` accumulation loop of `validate_requirements`:
the required packages not occurring as substrings of `content`, in
discovery (list) order. -/
def missing_packages (content : String) : List String :=
  required_packages.filter (fun package => !(strContains content package))

/-- Embedding of `validate_requirements()`. -/
def validate_requirements (fs : FS) : Bool × List String :=
  let req_file := "requirements.txt"
  if !(os_path_exists fs req_file) then
    (false, ["❌ Requirements file missing: " ++ req_file])
  else
    let content := fs.content req_file
    let mp := missing_packages content
    if mp = [] then
      (true, ["✅ All required packages found in requirements.txt"])
    else
      (false, ["❌ Missing required packages: " ++ String.intercalate ", " mp])

/-- The `required_configs` list of `validate_conf_py`. -/
def required_configs : List String :=
  ["myst_parser", "source_suffix", "myst_enable_extensions"]

/-- The `missing_configs` accumulation loop of `validate_conf_py`. -/
def missing_configs (content : String) : List String :=
  required_configs.filter (fun config => !(strContains content config))

/-- Embedding of `validate_conf_py()`. -/
def validate_conf_py (fs : FS) : Bool × List String :=
  let conf_file := "conf.py"
  if !(os_path_exists fs conf_file) then
    (false, ["❌ Configuration file missing: " ++ conf_file])
  else
    let content := fs.content conf_file
    let mc := missing_configs content
    if mc = [] then
      (true, ["✅ All required configurations found in conf.py"])
    else
      (false, ["❌ Missing configurations: " ++ String.intercalate ", " mc])

/-- The `"=" * 50` banner printed by `main`. -/
def eq_banner : String :=
  String.mk (List.replicate 50 '=')

/-- The warning line printed when `index.rst` exists alongside `index.md`. -/
def warn_line : String :=
  "⚠️  Warning: index.rst exists alongside index.md (may cause conflicts)"

/-- Embedding of `main()`: runs the fixed checklist in order, accumulating
the boolean AND of all results, flags `index.rst` presence as a failure,
and returns the exit code (`sys.exit(0)` or `sys.exit(1)`) together with
the printed lines in order. -/
def main (fs : FS) : Nat × List String :=
  let header := ["🔍 Validating ProteusJS Documentation Configuration", eq_banner]
  let c1 := check_file_exists fs "conf.py" "Sphinx configuration"
  let c2 := check_file_exists fs "requirements.txt" "Requirements file"
  let c3 := check_file_exists fs "index.md" "Main index file"
  let c4 := check_file_exists fs "../README.md" "Project README"
  let c5 := check_file_exists fs "../.readthedocs.yaml" "ReadTheDocs config"
  let d1 := check_directory_exists fs "_static" "Static files directory"
  let d2 := check_directory_exists fs "v2" "v2.0.0 documentation"
  let d3 := check_directory_exists fs "getting-started" "Getting started docs"
  let d4 := check_directory_exists fs "features" "Features documentation"
  let d5 := check_directory_exists fs "api" "API documentation"
  let vr := validate_requirements fs
  let vc := validate_conf_py fs
  let all_good := c1.1 && c2.1 && c3.1 && c4.1 && c5.1 && d1.1 && d2.1 &&
    d3.1 && d4.1 && d5.1 && vr.1 && vc.1
  let rst := os_path_exists fs "index.rst"
  let all_good2 := if rst then false else all_good
  let wlines := if rst then [warn_line] else []
  let closing :=
    if all_good2 then
      ["🎉 All validations passed! Documentation should build successfully."]
    else
      ["❌ Some validations failed. Please fix the issues above."]
  (if all_good2 then 0 else 1,
   header ++ c1.2 ++ c2.2 ++ c3.2 ++ c4.2 ++ c5.2 ++ d1.2 ++ d2.2 ++ d3.2 ++
     d4.2 ++ d5.2 ++ vr.2 ++ vc.2 ++ wlines ++ ["", eq_banner] ++ closing)

/-- The twelve checklist entries of `main`, each run on its own against the
filesystem: the five file-existence checks, the five directory-existence
checks, and the two content-validation checks, in checklist order. -/
def checkResults (fs : FS) : List (Bool × List String) :=
  [check_file_exists fs "conf.py" "Sphinx configuration",
   check_file_exists fs "requirements.txt" "Requirements file",
   check_file_exists fs "index.md" "Main index file",
   check_file_exists fs "../README.md" "Project README",
   check_file_exists fs "../.readthedocs.yaml" "ReadTheDocs config",
   check_directory_exists fs "_static" "Static files directory",
   check_directory_exists fs "v2" "v2.0.0 documentation",
   check_directory_exists fs "getting-started" "Getting started docs",
   check_directory_exists fs "features" "Features documentation",
   check_directory_exists fs "api" "API documentation",
   validate_requirements fs,
   validate_conf_py fs]

/-- The lines contributed by the legacy `index.rst` check. -/
def warn_lines (fs : FS) : List String :=
  if os_path_exists fs "index.rst" then [warn_line] else []

/-- The aggregate verdict of the run: all twelve checks pass and no legacy
`index.rst` file is present. -/
def aggregate (fs : FS) : Bool :=
  (checkResults fs).all (fun r => r.1) && !(os_path_exists fs "index.rst")

/-- The two header lines printed before the checklist. -/
def header_lines : List String :=
  ["🔍 Validating ProteusJS Documentation Configuration", eq_banner]

/-- The closing summary lines: a blank line, a banner, and the final
pass/fail line. -/
def summary_lines (fs : FS) : List String :=
  ["", eq_banner] ++
    (if aggregate fs then
      ["🎉 All validations passed! Documentation should build successfully."]
    else
      ["❌ Some validations failed. Please fix the issues above."])

/-- The eleven paths whose existence `main` consults. -/
def relevant_paths : List String :=
  ["conf.py", "requirements.txt", "index.md", "../README.md",
   "../.readthedocs.yaml", "_static", "v2", "getting-started", "features",
   "api", "index.rst"]

/-- A filesystem state in which every required file and directory is
present with valid contents and no `index.rst` exists. -/
def goodEntries : String → Option EntryKind := fun p =>
  if p = "conf.py" then some EntryKind.file
  else if p = "requirements.txt" then some EntryKind.file
  else if p = "index.md" then some EntryKind.file
  else if p = "../README.md" then some EntryKind.file
  else if p = "../.readthedocs.yaml" then some EntryKind.file
  else if p = "_static" then some EntryKind.dir
  else if p = "v2" then some EntryKind.dir
  else if p = "getting-started" then some EntryKind.dir
  else if p = "features" then some EntryKind.dir
  else if p = "api" then some EntryKind.dir
  else none

/-- Valid contents for the two scanned files. -/
def goodContent : String → String := fun p =>
  if p = "requirements.txt" then "sphinx\nmyst-parser\nsphinx-rtd-theme\n"
  else if p = "conf.py" then
    "extensions = [ myst_parser ]\nsource_suffix\nmyst_enable_extensions\n"
  else ""

/-- The all-good filesystem state. -/
def goodFS : FS :=
  { entries := goodEntries, content := goodContent }

/-- The all-good state with a legacy `index.rst` file also present. -/
def rstFS : FS :=
  { entries := fun p => if p = "index.rst" then some EntryKind.file else goodEntries p,
    content := goodContent }

/-- The all-good state except that `requirements.txt` omits `myst-parser`. -/
def noMystFS : FS :=
  { entries := goodEntries,
    content := fun p =>
      if p = "requirements.txt" then "sphinx\nsphinx-rtd-theme\n"
      else goodContent p }

/-- A filesystem state with no entries at all. -/
def emptyFS : FS :=
  { entries := fun _ => none, content := fun _ => "" }


/-- Boolean test that a console line opens with one of the three status
glyphs (success, failure, warning). -/
def status_glyph_line (s : String) : Bool :=
  startsWithL ("✅").data s.data || startsWithL ("❌").data s.data ||
    startsWithL ("⚠️").data s.data

/-- The all-good state extended with an extra file irrelevant to every
check, and unchanged contents: used to exhibit determinism in the
checked filesystem state. -/
def goodFS2 : FS :=
  { entries := fun p => if p = "extra.txt" then some EntryKind.file else goodEntries p,
    content := goodContent }

/-! ### Helper lemmas -/

lemma ite_exit_eq_zero (c : Bool) : ((if c then (0 : Nat) else 1) = 0) ↔ c = true := by
  cases c <;> simp

lemma main_fst (fs : FS) : (main fs).1 = if aggregate fs then 0 else 1 := by
  rcases Bool.dichotomy (os_path_exists fs "index.rst") with hrst | hrst <;>
    simp [main, aggregate, checkResults, hrst, Bool.and_assoc]

lemma main_snd (fs : FS) :
    (main fs).2 = header_lines ++ ((checkResults fs).map Prod.snd).flatten ++
      warn_lines fs ++ summary_lines fs := by
  rcases Bool.dichotomy (os_path_exists fs "index.rst") with hrst | hrst <;>
    simp [main, header_lines, checkResults, warn_lines, summary_lines, aggregate,
      hrst, Bool.and_assoc, List.append_assoc]

lemma check_file_exists_one_line (fs : FS) (p d : String) :
    (check_file_exists fs p d).2.length = 1 := by
  unfold check_file_exists
  split <;> rfl

lemma check_directory_exists_one_line (fs : FS) (p d : String) :
    (check_directory_exists fs p d).2.length = 1 := by
  unfold check_directory_exists
  split <;> rfl

lemma validate_requirements_one_line (fs : FS) :
    (validate_requirements fs).2.length = 1 := by
  simp only [validate_requirements]
  split
  · rfl
  · split <;> rfl

lemma validate_conf_py_one_line (fs : FS) :
    (validate_conf_py fs).2.length = 1 := by
  simp only [validate_conf_py]
  split
  · rfl
  · split <;> rfl

/-! ### Claim theorems -/

/-- Claim C1: the process exits with code 0 iff all five file-existence
checks, all five directory-existence checks and both content-validation
checks return true and `index.rst` does not exist; otherwise it exits
with code 1. -/
theorem exit_zero_iff_all_checks (fs : FS) :
    ((main fs).1 = 0 ↔
      ((checkResults fs).all (fun r => r.1) = true ∧
        os_path_exists fs "index.rst" = false)) ∧
    ((main fs).1 ≠ 0 → (main fs).1 = 1) := by
  constructor
  · rw [main_fst, ite_exit_eq_zero]
    simp [aggregate, Bool.and_eq_true, Bool.not_eq_true']
  · rw [main_fst]
    cases aggregate fs <;> simp

/-- Claim C1 witness: on the all-good filesystem state the exit code is 0,
via the iff. -/
theorem exit_zero_iff_all_checks_witness : (main goodFS).1 = 0 :=
  (exit_zero_iff_all_checks goodFS).1.mpr ⟨by decide, by decide⟩

/-- Claim C2: every one of the twelve checks runs and reports exactly one
line of its own on every filesystem state; the full console output is the
header followed by each check's own output in checklist order, then the
legacy-file warning lines and the summary — no check result depends on an
earlier check's outcome. -/
theorem full_checklist_always_runs (fs : FS) :
    ((checkResults fs).all (fun r => r.2.length == 1) = true) ∧
    (main fs).2 = header_lines ++ ((checkResults fs).map Prod.snd).flatten ++
      warn_lines fs ++ summary_lines fs := by
  refine ⟨?_, main_snd fs⟩
  simp [checkResults, check_file_exists_one_line, check_directory_exists_one_line,
    validate_requirements_one_line, validate_conf_py_one_line]

/-- Claim C9: `check_file_exists` and `check_directory_exists` are
extensionally equal — same boolean and same printed lines on every
filesystem state, path and description. -/
theorem check_file_eq_check_directory (fs : FS) (p d : String) :
    check_file_exists fs p d = check_directory_exists fs p d := rfl

lemma str_data_append (a b : String) : (a ++ b).data = a.data ++ b.data := by
  cases a
  cases b
  rfl

lemma startsWithL_of_append (p q l : List Char)
    (h : startsWithL (p ++ q) l = true) : startsWithL p l = true := by
  induction p generalizing l with
  | nil => rfl
  | cons a as ih =>
    cases l with
    | nil => simp [startsWithL] at h
    | cons b bs =>
      simp only [List.cons_append, startsWithL, Bool.and_eq_true] at h ⊢
      exact ⟨h.1, ih bs h.2⟩

lemma occursIn_of_append (p q l : List Char)
    (h : occursIn (p ++ q) l = true) : occursIn p l = true := by
  induction l with
  | nil =>
    simp only [occursIn] at h ⊢
    exact startsWithL_of_append p q [] h
  | cons c cs ih =>
    simp only [occursIn, Bool.or_eq_true] at h ⊢
    rcases h with h | h
    · exact Or.inl (startsWithL_of_append _ _ _ h)
    · exact Or.inr (ih h)

lemma req_missing_msg_ne (s : String) :
    "❌ Requirements file missing: requirements.txt" ≠
      "❌ Missing required packages: " ++ s := by
  intro h
  have hd := congrArg (fun t => t.data[2]?) h
  simp only [str_data_append] at hd
  have h1 : ("❌ Requirements file missing: requirements.txt").data[2]? = some 'R' := rfl
  have h2 : (("❌ Missing required packages: ").data ++ s.data)[2]? = some 'M' := rfl
  rw [h1, h2] at hd
  exact absurd hd (by decide)

lemma conf_missing_msg_ne (s : String) :
    "❌ Configuration file missing: conf.py" ≠
      "❌ Missing configurations: " ++ s := by
  intro h
  have hd := congrArg (fun t => t.data[2]?) h
  simp only [str_data_append] at hd
  have h1 : ("❌ Configuration file missing: conf.py").data[2]? = some 'C' := rfl
  have h2 : (("❌ Missing configurations: ").data ++ s.data)[2]? = some 'M' := rfl
  rw [h1, h2] at hd
  exact absurd hd (by decide)

lemma check_file_exists_glyph (fs : FS) (p d : String) :
    (check_file_exists fs p d).2.all status_glyph_line = true := by
  cases p with
  | mk pl =>
    cases d with
    | mk dl =>
      unfold check_file_exists
      split <;> rfl

lemma check_directory_exists_glyph (fs : FS) (p d : String) :
    (check_directory_exists fs p d).2.all status_glyph_line = true := by
  cases p with
  | mk pl =>
    cases d with
    | mk dl =>
      unfold check_directory_exists
      split <;> rfl

lemma validate_requirements_glyph (fs : FS) :
    (validate_requirements fs).2.all status_glyph_line = true := by
  simp only [validate_requirements]
  split
  · rfl
  · split
    · rfl
    · generalize String.intercalate ", " (missing_packages (fs.content "requirements.txt")) = x
      cases x with
      | mk xl => rfl

lemma validate_conf_py_glyph (fs : FS) :
    (validate_conf_py fs).2.all status_glyph_line = true := by
  simp only [validate_conf_py]
  split
  · rfl
  · split
    · rfl
    · generalize String.intercalate ", " (missing_configs (fs.content "conf.py")) = x
      cases x with
      | mk xl => rfl

/-- Claim C3: if every one of the twelve checklist checks passes but
`index.rst` exists in the resolved working directory, the warning line is
printed and the process exits with code 1. -/
theorem legacy_index_forces_failure (fs : FS)
    (_hall : (checkResults fs).all (fun r => r.1) = true)
    (hrst : os_path_exists fs "index.rst" = true) :
    (main fs).1 = 1 ∧ warn_line ∈ (main fs).2 := by
  constructor
  · rw [main_fst]
    simp [aggregate, hrst]
  · rw [main_snd]
    simp [warn_lines, hrst]

/-- Claim C3 witness: on the all-good state with `index.rst` also present,
the exit code is 1 and the warning line appears in the output. -/
theorem legacy_index_forces_failure_witness :
    (main rstFS).1 = 1 ∧ warn_line ∈ (main rstFS).2 :=
  legacy_index_forces_failure rstFS (by decide) (by decide)

/-- Claim C4: if `requirements.txt` exists, lacks the substring
`myst-parser` but contains `sphinx` and `sphinx-rtd-theme`, the
dependency-manifest check reports exactly `myst-parser` as missing and
returns false, and the process exits with code 1; missing packages are
always listed in discovery order (a sublist of the required list). -/
theorem missing_myst_parser_reported (fs : FS)
    (hex : os_path_exists fs "requirements.txt" = true)
    (hm : strContains (fs.content "requirements.txt") "myst-parser" = false)
    (hs : strContains (fs.content "requirements.txt") "sphinx" = true)
    (ht : strContains (fs.content "requirements.txt") "sphinx-rtd-theme" = true) :
    validate_requirements fs = (false, ["❌ Missing required packages: myst-parser"]) ∧
    (main fs).1 = 1 ∧
    ∀ c : String, (missing_packages c).Sublist required_packages := by
  have hmp : missing_packages (fs.content "requirements.txt") = ["myst-parser"] := by
    simp [missing_packages, required_packages, hm, hs, ht]
  have hvr : validate_requirements fs =
      (false, ["❌ Missing required packages: myst-parser"]) := by
    simp [validate_requirements, hex, hmp]
    rfl
  refine ⟨hvr, ?_, fun c => List.filter_sublist _⟩
  rw [main_fst]
  have hagg : aggregate fs = false := by
    simp [aggregate, checkResults, hvr]
  rw [hagg]
  rfl

/-- Claim C4 witness: on the state whose `requirements.txt` omits
`myst-parser` but has the other two names, the check reports exactly
`myst-parser` and the run exits 1. -/
theorem missing_myst_parser_reported_witness :
    validate_requirements noMystFS =
      (false, ["❌ Missing required packages: myst-parser"]) ∧
    (main noMystFS).1 = 1 ∧
    ∀ c : String, (missing_packages c).Sublist required_packages :=
  missing_myst_parser_reported noMystFS (by decide) (by decide) (by decide) (by decide)

/-- Claim C5: each content-validation check, on a state where its target
file does not exist, returns false with a missing-file message that is
distinct from every missing-substring message, without reading any file
content (the result is invariant under changing the content map); and the
full checklist output is still produced around it. -/
theorem content_checks_report_missing_file (fs : FS) :
    (fs.entries "requirements.txt" = none →
      validate_requirements fs =
        (false, ["❌ Requirements file missing: requirements.txt"]) ∧
      ∀ g : String → String,
        validate_requirements { entries := fs.entries, content := g } =
          validate_requirements fs) ∧
    (fs.entries "conf.py" = none →
      validate_conf_py fs = (false, ["❌ Configuration file missing: conf.py"]) ∧
      ∀ g : String → String,
        validate_conf_py { entries := fs.entries, content := g } =
          validate_conf_py fs) ∧
    (∀ s : String, "❌ Requirements file missing: requirements.txt" ≠
      "❌ Missing required packages: " ++ s) ∧
    (∀ s : String, "❌ Configuration file missing: conf.py" ≠
      "❌ Missing configurations: " ++ s) ∧
    (main fs).2 = header_lines ++ ((checkResults fs).map Prod.snd).flatten ++
      warn_lines fs ++ summary_lines fs := by
  refine ⟨?_, ?_, req_missing_msg_ne, conf_missing_msg_ne, main_snd fs⟩
  · intro h
    refine ⟨?_, ?_⟩
    · simp [validate_requirements, os_path_exists, h]
    · intro g
      simp [validate_requirements, os_path_exists, h]
  · intro h
    refine ⟨?_, ?_⟩
    · simp [validate_conf_py, os_path_exists, h]
    · intro g
      simp [validate_conf_py, os_path_exists, h]

/-- Claim C5 witness: on the empty filesystem both content checks report
their missing-file messages. -/
theorem content_checks_report_missing_file_witness :
    validate_requirements emptyFS =
      (false, ["❌ Requirements file missing: requirements.txt"]) ∧
    validate_conf_py emptyFS = (false, ["❌ Configuration file missing: conf.py"]) :=
  ⟨((content_checks_report_missing_file emptyFS).1 rfl).1,
   ((content_checks_report_missing_file emptyFS).2.1 rfl).1⟩

/-- Claim C6: the generic existence checks make no file/directory type
distinction: the file check accepts a directory entry and the directory
check accepts a file entry at the same path. -/
theorem existence_checks_ignore_kind (fs : FS) (p d : String) :
    (fs.entries p = some EntryKind.dir → (check_file_exists fs p d).1 = true) ∧
    (fs.entries p = some EntryKind.file → (check_directory_exists fs p d).1 = true) := by
  constructor <;> intro h <;>
    simp [check_file_exists, check_directory_exists, os_path_exists, h]

/-- Claim C6 witness: on the all-good state, the file check accepts the
`_static` directory and the directory check accepts the `conf.py` file. -/
theorem existence_checks_ignore_kind_witness :
    (check_file_exists goodFS "_static" "Static files directory").1 = true ∧
    (check_directory_exists goodFS "conf.py" "Sphinx configuration").1 = true :=
  ⟨(existence_checks_ignore_kind goodFS "_static" "Static files directory").1 (by decide),
   (existence_checks_ignore_kind goodFS "conf.py" "Sphinx configuration").2 (by decide)⟩

/-- Claim C7 counterexample: on the all-good state (no `index.rst`), every
other check passes and the run exits 0, yet no line for the legacy
index-file check appears in the output — refuting the claim that a legacy
check line is printed whether or not `index.rst` is present. -/
theorem one_status_line_cex :
    (main goodFS).1 = 0 ∧ warn_line ∉ (main goodFS).2 := by
  refine ⟨rfl, ?_⟩
  decide

/-- Claim C7 as amended: on every filesystem state, each of the twelve
checklist checks prints exactly one line prefixed with a status glyph, and
the legacy index-file check contributes the glyph-prefixed warning line
exactly when `index.rst` is present (and no line otherwise). -/
theorem one_status_line_per_check (fs : FS) :
    ((checkResults fs).all
      (fun r => r.2.length == 1 && r.2.all status_glyph_line) = true) ∧
    status_glyph_line warn_line = true ∧
    (main fs).2 = header_lines ++ ((checkResults fs).map Prod.snd).flatten ++
      (if os_path_exists fs "index.rst" then [warn_line] else []) ++
      summary_lines fs := by
  refine ⟨?_, rfl, ?_⟩
  · simp [checkResults, check_file_exists_one_line, check_directory_exists_one_line,
      validate_requirements_one_line, validate_conf_py_one_line,
      check_file_exists_glyph, check_directory_exists_glyph,
      validate_requirements_glyph, validate_conf_py_glyph]
  · rw [main_snd]
    simp [warn_lines]

/-- Claim C8: the run is deterministic in the filesystem state: two states
agreeing on the entries at the eleven checked paths and on the contents of
the two scanned files produce identical per-check results, output and exit
code; in particular two runs with no filesystem change are identical. -/
theorem run_deterministic (fs fs' : FS)
    (he : ∀ p ∈ relevant_paths, fs.entries p = fs'.entries p)
    (hreq : fs.content "requirements.txt" = fs'.content "requirements.txt")
    (hconf : fs.content "conf.py" = fs'.content "conf.py") :
    main fs = main fs' := by
  have e1 := he "conf.py" (by simp [relevant_paths])
  have e2 := he "requirements.txt" (by simp [relevant_paths])
  have e3 := he "index.md" (by simp [relevant_paths])
  have e4 := he "../README.md" (by simp [relevant_paths])
  have e5 := he "../.readthedocs.yaml" (by simp [relevant_paths])
  have e6 := he "_static" (by simp [relevant_paths])
  have e7 := he "v2" (by simp [relevant_paths])
  have e8 := he "getting-started" (by simp [relevant_paths])
  have e9 := he "features" (by simp [relevant_paths])
  have e10 := he "api" (by simp [relevant_paths])
  have e11 := he "index.rst" (by simp [relevant_paths])
  simp only [main, check_file_exists, check_directory_exists, validate_requirements,
    validate_conf_py, os_path_exists, e1, e2, e3, e4, e5, e6, e7, e8, e9, e10, e11,
    hreq, hconf]

/-- Claim C8 witness: the all-good state and the same state extended with
an irrelevant extra file produce identical runs. -/
theorem run_deterministic_witness : main goodFS = main goodFS2 :=
  run_deterministic goodFS goodFS2
    (by
      intro p hp
      simp only [relevant_paths, List.mem_cons, List.not_mem_nil, or_false] at hp
      rcases hp with rfl | rfl | rfl | rfl | rfl | rfl | rfl | rfl | rfl | rfl | rfl <;> rfl)
    rfl rfl

/-- Claim C10: any `requirements.txt` content containing the substring
`sphinx-rtd-theme` also contains `sphinx`, so `sphinx` never appears in
the missing-packages list of the dependency-manifest check. -/
theorem sphinx_contained_in_theme (c : String)
    (h : strContains c "sphinx-rtd-theme" = true) :
    strContains c "sphinx" = true ∧ "sphinx" ∉ missing_packages c := by
  have hs : strContains c "sphinx" = true := by
    unfold strContains at h ⊢
    have hdata : ("sphinx-rtd-theme").data = ("sphinx").data ++ ("-rtd-theme").data := by
      decide
    rw [hdata] at h
    exact occursIn_of_append _ _ _ h
  refine ⟨hs, ?_⟩
  simp [missing_packages, required_packages, List.mem_filter, hs]

/-- Claim C10 witness: a concrete content containing `sphinx-rtd-theme`
also contains `sphinx` and `sphinx` is not reported missing. -/
theorem sphinx_contained_in_theme_witness :
    strContains "sphinx-rtd-theme\n" "sphinx" = true ∧
      "sphinx" ∉ missing_packages "sphinx-rtd-theme\n" :=
  sphinx_contained_in_theme "sphinx-rtd-theme\n" (by decide)

end ValidateConfig
